import Mathlib

/-!
Verification of the Foundry OCI manifest generator.

Shallow embedding of the repository's two scripts:

* `store-solidity-abis.js` (`src/gen.js`): four packaging strategies
  (`approachA` … `approachD`) turning a list of named ABI payloads into an
  OCI artifact manifest, driven by a CLI `main`.
* `oci-submodules-approach-c.js` (embedded in `src/README.md`): the
  submodule variant of strategy C (`Subm.main`, `parseGitmodules`).

File bytes are modelled as `List Nat` (each byte reduced mod 256 where it
matters), strings as Lean `String`.  The `crypto` SHA-256 digest is embedded
as an executable Lean implementation of FIPS 180-4 over `Nat` arithmetic
taken mod 2^32, validated below against the well-known digest of the
two-byte body of the OCI empty descriptor.
-/

/-! ## SHA-256 over byte lists -/

/-- Truncate to a 32-bit word (machine `Nat` mod 2^32). -/
def w32 (x : Nat) : Nat := x % 4294967296

/-- Right rotation of a 32-bit word by `k` bits. -/
def rotr32 (k x : Nat) : Nat := w32 ((x >>> k) ||| (x <<< (32 - k)))

/-- SHA-256 choice function. -/
def shaCh (e f g : Nat) : Nat := (e &&& f) ^^^ ((4294967295 - e) &&& g)

/-- SHA-256 majority function. -/
def shaMaj (a b c : Nat) : Nat := (a &&& b) ^^^ (a &&& c) ^^^ (b &&& c)

/-- SHA-256 big sigma 0. -/
def shaS0 (a : Nat) : Nat := rotr32 2 a ^^^ rotr32 13 a ^^^ rotr32 22 a

/-- SHA-256 big sigma 1. -/
def shaS1 (e : Nat) : Nat := rotr32 6 e ^^^ rotr32 11 e ^^^ rotr32 25 e

/-- SHA-256 small sigma 0. -/
def shaSmall0 (w : Nat) : Nat := rotr32 7 w ^^^ rotr32 18 w ^^^ (w >>> 3)

/-- SHA-256 small sigma 1. -/
def shaSmall1 (w : Nat) : Nat := rotr32 17 w ^^^ rotr32 19 w ^^^ (w >>> 10)

/-- The 64 SHA-256 round constants (FIPS 180-4 section 4.2.2, written in
decimal). -/
def shaK : List Nat :=
  [1116352408, 1899447441, 3049323471, 3921009573,
   961987163, 1508970993, 2453635748, 2870763221,
   3624381080, 310598401, 607225278, 1426881987,
   1925078388, 2162078206, 2614888103, 3248222580,
   3835390401, 4022224774, 264347078, 604807628,
   770255983, 1249150122, 1555081692, 1996064986,
   2554220882, 2821834349, 2952996808, 3210313671,
   3336571891, 3584528711, 113926993, 338241895,
   666307205, 773529912, 1294757372, 1396182291,
   1695183700, 1986661051, 2177026350, 2456956037,
   2730485921, 2820302411, 3259730800, 3345764771,
   3516065817, 3600352804, 4094571909, 275423344,
   430227734, 506948616, 659060556, 883997877,
   958139571, 1322822218, 1537002063, 1747873779,
   1955562222, 2024104815, 2227730452, 2361852424,
   2428436474, 2756734187, 3204031479, 3329325298]

/-- The eight 32-bit working registers / chaining values of SHA-256. -/
structure Hash8 where
  h0 : Nat
  h1 : Nat
  h2 : Nat
  h3 : Nat
  h4 : Nat
  h5 : Nat
  h6 : Nat
  h7 : Nat
deriving DecidableEq, Repr

/-- SHA-256 initial hash value (FIPS 180-4 section 5.3.3, written in
decimal). -/
def shaH0 : Hash8 :=
  ⟨1779033703, 3144134277, 1013904242, 2773480762,
   1359893119, 2600822924, 528734635, 1541459225⟩

/-- Big-endian byte decomposition: `n` bytes of `x`, most significant first. -/
def beBytes : Nat → Nat → List Nat
  | 0, _ => []
  | n + 1, x => ((x >>> (8 * n)) % 256) :: beBytes n x

/-- Pack bytes into 32-bit big-endian words (whole groups of four only). -/
def bytesToWords : List Nat → List Nat
  | b0 :: b1 :: b2 :: b3 :: rest =>
      (((b0 * 256 + b1) * 256 + b2) * 256 + b3) :: bytesToWords rest
  | _ => []

/-- Extend the message schedule: the accumulator holds words newest-first;
runs `t` extension steps. -/
def extendW : Nat → List Nat → List Nat
  | 0, ws => ws
  | t + 1, ws =>
      let w2 := ws.getD 1 0
      let w7 := ws.getD 6 0
      let w15 := ws.getD 14 0
      let w16 := ws.getD 15 0
      extendW t (w32 (w16 + shaSmall0 w15 + w7 + shaSmall1 w2) :: ws)

/-- The 64-word message schedule of one 64-byte block. -/
def messageSchedule (block : List Nat) : List Nat :=
  (extendW 48 (bytesToWords block).reverse).reverse

/-- One round of the SHA-256 compression function for a `(K, W)` pair. -/
def compressStep (st : Hash8) (kw : Nat × Nat) : Hash8 :=
  let t1 := w32 (st.h7 + shaS1 st.h4 + shaCh st.h4 st.h5 st.h6 + kw.1 + kw.2)
  let t2 := w32 (shaS0 st.h0 + shaMaj st.h0 st.h1 st.h2)
  ⟨w32 (t1 + t2), st.h0, st.h1, st.h2, w32 (st.h3 + t1), st.h4, st.h5, st.h6⟩

/-- Process one 64-byte block against the chaining value `H`. -/
def processBlock (H : Hash8) (block : List Nat) : Hash8 :=
  let W := messageSchedule block
  let st := (shaK.zip W).foldl compressStep H
  ⟨w32 (H.h0 + st.h0), w32 (H.h1 + st.h1), w32 (H.h2 + st.h2), w32 (H.h3 + st.h3),
   w32 (H.h4 + st.h4), w32 (H.h5 + st.h5), w32 (H.h6 + st.h6), w32 (H.h7 + st.h7)⟩

/-- SHA-256 padding: append `0x80`, zeros to 56 mod 64, then the bit length
as eight big-endian bytes. -/
def padBytes (msg : List Nat) : List Nat :=
  let len := msg.length
  let zeros := (119 - len % 64) % 64
  msg ++ (128 :: List.replicate zeros 0) ++ beBytes 8 (len * 8)

/-- Split a byte list into consecutive 64-byte chunks; the fuel argument
(at least the list length suffices, since every step consumes a byte) keeps
the recursion structural so that the kernel can evaluate it. -/
def chunk64Fuel : Nat → List Nat → List (List Nat)
  | 0, _ => []
  | _, [] => []
  | fuel + 1, x :: xs => ((x :: xs).take 64) :: chunk64Fuel fuel (xs.drop 63)

/-- Split a byte list into consecutive 64-byte chunks. -/
def chunk64 (l : List Nat) : List (List Nat) := chunk64Fuel l.length l

/-- SHA-256 of a byte list (each input entry reduced mod 256), returning the
32 digest bytes. -/
def sha256 (msg : List Nat) : List Nat :=
  let data := msg.map (fun b => b % 256)
  let final := (chunk64 (padBytes data)).foldl processBlock shaH0
  beBytes 4 final.h0 ++ beBytes 4 final.h1 ++ beBytes 4 final.h2 ++ beBytes 4 final.h3 ++
  beBytes 4 final.h4 ++ beBytes 4 final.h5 ++ beBytes 4 final.h6 ++ beBytes 4 final.h7

/-- One lowercase hexadecimal digit. -/
def hexDigit (n : Nat) : Char :=
  if n < 10 then Char.ofNat (48 + n) else Char.ofNat (87 + n)

/-- Lowercase hex characters of a byte list, two digits per byte. -/
def hexChars : List Nat → List Char
  | [] => []
  | b :: t => hexDigit (b / 16 % 16) :: hexDigit (b % 16) :: hexChars t

/-- Lowercase hex encoding of a byte list, as produced by the node `crypto`
digest in hex mode. -/
def hexOfBytes (l : List Nat) : String := String.mk (hexChars l)

/-- Hex-encoded SHA-256 of a byte list. -/
def sha256Hex (data : List Nat) : String := hexOfBytes (sha256 data)

/-! ## OCI data model (shared by both scripts) -/

/-- An OCI content descriptor: the record shape emitted by both scripts.
`annotations` is `none` when the JS object carries no such key. -/
structure Descriptor where
  mediaType : String
  digest : String
  size : Nat
  annotations : Option (List (String × String)) := none
deriving DecidableEq, Repr

/-- An OCI image/artifact manifest as emitted by both scripts.  `subject` is
`none` when the JS object carries no such key.  Exactly one `config`
descriptor exists by construction of this record type. -/
structure Manifest where
  schemaVersion : Nat
  mediaType : String
  artifactType : String
  config : Descriptor
  layers : List Descriptor
  subject : Option Descriptor := none
deriving DecidableEq, Repr

/-- The fixed empty descriptor constant of both scripts (digest of the
two-byte body of an empty JSON object). -/
def EMPTY_DESCRIPTOR : Descriptor :=
  { mediaType := "application/vnd.oci.empty.v1+json"
    digest := "sha256:44136fa355b3678a1146ad16f7e8649e94fb4fc21fe77e8310c060f61caaff8a"
    size := 2 }

/-- The fixed fake subject constant of `gen.js`, attached by approach D. -/
def SUBJECT_DESCRIPTOR : Descriptor :=
  { mediaType := "application/vnd.oci.image.manifest.v1+json"
    digest := "sha256:1111111111111111111111111111111111111111111111111111111111111111"
    size := 9999 }

/-- A named payload: the base name of a source file paired with its bytes
(the filesystem read is the excluded collaborator). -/
abbrev NamedFile := String × List Nat

/-- `computeDigestAndSize` of both scripts, over the materialized bytes of
the file: a `sha256:`-prefixed lowercase hex digest and the byte length. -/
structure DigestSize where
  digest : String
  size : Nat
deriving DecidableEq, Repr

def computeDigestAndSize (data : List Nat) : DigestSize :=
  { digest := "sha256:" ++ sha256Hex data, size := data.length }

/-! ## Embedding of `gen.js` -/

/-- The JavaScript exceptions the generator can raise. `missingSubject` is
the failure condition named by the spec for strategy D; it is declared here
so the condition is statable, and no code path below ever raises it. -/
inductive JsError where
  | typeError
  | missingSubject
deriving DecidableEq, Repr

/-- Modelled from the spec: the external archiving collaborator (the
`tar -czf` child process invoked by `tarFiles`, not part of this
repository).  Spec section 4.2: payload bytes are combined deterministically
— stable iteration order equal to input order — into a single archive byte
sequence.  Only determinism and order-sensitivity matter to the claims; the
concrete byte layout here separates each name and payload with a zero
byte. -/
def bundle (payloads : List NamedFile) : List Nat :=
  payloads.foldr
    (fun p acc => (p.1.data.map (fun c => c.toNat % 256)) ++ (0 :: p.2) ++ (0 :: acc)) []

/-- `tarFiles` from `gen.js`: on an empty file list the very first step,
`path.dirname(fileList[0])`, receives `undefined` and throws a `TypeError`;
otherwise the bundle for the file list is produced. -/
def tarFiles (fileList : List NamedFile) : Except JsError (List Nat) :=
  match fileList with
  | [] => Except.error JsError.typeError
  | _ :: _ => Except.ok (bundle fileList)

/-- `approachA` from `gen.js`: minimal config plus a single layer holding the
combined bundle of every ABI file. -/
def approachA (abiFiles : List NamedFile) : Except JsError Manifest :=
  match tarFiles abiFiles with
  | Except.error e => Except.error e
  | Except.ok tgz =>
    let ds := computeDigestAndSize tgz
    Except.ok
      { schemaVersion := 2
        mediaType := "application/vnd.oci.image.manifest.v1+json"
        artifactType := "application/vnd.solidity.abi"
        config := EMPTY_DESCRIPTOR
        layers := [{ mediaType := "application/vnd.solidity.abi.layer.v1+tar+gzip"
                     digest := ds.digest, size := ds.size }]
        subject := none }

/-- `approachB` from `gen.js`: the same combined bundle folded into the
config slot, with an empty layer sequence. -/
def approachB (abiFiles : List NamedFile) : Except JsError Manifest :=
  match tarFiles abiFiles with
  | Except.error e => Except.error e
  | Except.ok tgz =>
    let ds := computeDigestAndSize tgz
    Except.ok
      { schemaVersion := 2
        mediaType := "application/vnd.oci.image.manifest.v1+json"
        artifactType := "application/vnd.solidity.abi"
        config := { mediaType := "application/vnd.solidity.abi.config.v1+tar+gzip"
                    digest := ds.digest, size := ds.size }
        layers := []
        subject := none }

/-- The layer descriptor `approachC` pushes for one ABI file: digest and
size of that file's own bytes, with the base name recorded under the OCI
title annotation key. -/
def abiLayer (f : NamedFile) : Descriptor :=
  let ds := computeDigestAndSize f.2
  { mediaType := "application/vnd.solidity.abi.file"
    digest := ds.digest, size := ds.size
    annotations := some [("org.opencontainers.image.title", f.1)] }

/-- `approachC` from `gen.js`: minimal config, one layer per ABI file in
input order, each annotated with the file's base name; never throws. -/
def approachC (abiFiles : List NamedFile) : Manifest :=
  { schemaVersion := 2
    mediaType := "application/vnd.oci.image.manifest.v1+json"
    artifactType := "application/vnd.solidity.abi"
    config := EMPTY_DESCRIPTOR
    layers := abiFiles.map abiLayer
    subject := none }

/-- `approachD` from `gen.js`: builds approach A's manifest, then assigns the
fixed `SUBJECT_DESCRIPTOR` constant to its `subject` property.  The function
takes no subject option and has no failure path of its own. -/
def approachD (abiFiles : List NamedFile) : Except JsError Manifest :=
  match approachA abiFiles with
  | Except.error e => Except.error e
  | Except.ok baseManifest => Except.ok { baseManifest with subject := some SUBJECT_DESCRIPTOR }

/-- Failure conditions of the `gen.js` CLI driver. -/
inductive MainError where
  | usage
  | emptyInput
  | thrown (e : JsError)
deriving DecidableEq, Repr

/-- Propagate a generator exception out of the driver. -/
def liftJs : Except JsError Manifest → Except MainError Manifest
  | Except.error e => Except.error (MainError.thrown e)
  | Except.ok m => Except.ok m

namespace Gen

/-- `main` from `gen.js`: validates the strategy selector string, then
rejects an empty ABI file list with the empty-input condition before any
builder runs, then dispatches on the selector; the returned manifest is the
document written to `manifest.json`. -/
def main (approach : String) (abiFiles : List NamedFile) : Except MainError Manifest :=
  if approach ∉ (["A", "B", "C", "D"] : List String) then Except.error MainError.usage
  else if abiFiles.length = 0 then Except.error MainError.emptyInput
  else if approach = "A" then liftJs (approachA abiFiles)
  else if approach = "B" then liftJs (approachB abiFiles)
  else if approach = "C" then Except.ok (approachC abiFiles)
  else liftJs (approachD abiFiles)

end Gen

/-! ## Character-level string helpers

The JavaScript string operations used by the `.gitmodules` parser, embedded
structurally over `List Char` so that every definition evaluates by kernel
reduction. -/

/-- JS `split(sep)` on a character list: always at least one (possibly
empty) piece, one extra piece per separator occurrence. -/
def jsSplitChars (sep : Char) : List Char → List (List Char)
  | [] => [[]]
  | x :: xs =>
    match jsSplitChars sep xs with
    | [] => if x = sep then [[], [x]] else [[x]]
    | h :: t => if x = sep then [] :: h :: t else (x :: h) :: t

/-- JS `split(sep)` on a string. -/
def jsSplit (sep : Char) (s : String) : List String :=
  (jsSplitChars sep s.data).map String.mk

/-- JS `trimStart()`. -/
def jsTrimLeft (s : String) : String :=
  String.mk (s.data.dropWhile Char.isWhitespace)

/-- JS `trim()`. -/
def jsTrim (s : String) : String :=
  String.mk (((s.data.dropWhile Char.isWhitespace).reverse.dropWhile Char.isWhitespace).reverse)

/-- JS `startsWith(pre)`. -/
def jsStartsWith (pre s : String) : Bool := pre.data.isPrefixOf s.data

/-- JS `slice(n)` by character count (all inputs here are ASCII). -/
def jsDrop (n : Nat) (s : String) : String := String.mk (s.data.drop n)

/-! ## Embedding of `oci-submodules-approach-c.js` (from `src/README.md`) -/

namespace Subm

/-- A parsed `.gitmodules` submodule record: only `name` is always present;
`path`, `url` and `branch` stay absent (`none`) until the matching key line
is seen. -/
structure Submodule where
  name : String
  path : Option String := none
  url : Option String := none
  branch : Option String := none
deriving DecidableEq, Repr

/-- The quoted capture of the header regex: at least two quote characters
are required, and the greedy capture spans from the first quote to the
last. -/
def quotedName (line : String) : Option String :=
  let parts := jsSplit '"' line
  if parts.length ≥ 3 then
    some (String.intercalate "\"" ((parts.drop 1).dropLast))
  else none

/-- The `key \s* = \s* (.*)` assignment regex applied after the
`startsWith key` guard, with the captured value trimmed as in the script. -/
def keyValue (key line : String) : Option String :=
  if jsStartsWith key line then
    let rest := jsTrimLeft (jsDrop key.data.length line)
    if jsStartsWith "=" rest then some (jsTrim (jsDrop 1 rest)) else none
  else none

/-- Insert or overwrite a key in an insertion-ordered association list, as
assignment on a JS object does (an existing key keeps its position). -/
def upsert (subs : List (String × Submodule)) (k : String) (v : Submodule) :
    List (String × Submodule) :=
  match subs with
  | [] => [(k, v)]
  | (k', v') :: t => if k' = k then (k, v) :: t else (k', v') :: upsert t k v

/-- Update the record stored under a key, leaving other entries alone. -/
def modifyAt (subs : List (String × Submodule)) (k : String) (f : Submodule → Submodule) :
    List (String × Submodule) :=
  subs.map (fun p => if p.1 = k then (p.1, f p.2) else p)

/-- State of the `.gitmodules` line loop: the current submodule name (if a
header has matched) and the accumulated insertion-ordered record. -/
structure ParseState where
  current : Option String
  submodules : List (String × Submodule)

/-- One iteration of the `.gitmodules` line loop. -/
def parseLine (st : ParseState) (rawLine : String) : ParseState :=
  let line := jsTrim rawLine
  if jsStartsWith "[submodule" line then
    match quotedName line with
    | some nm => { current := some nm, submodules := upsert st.submodules nm { name := nm } }
    | none => st
  else
    match st.current with
    | none => st
    | some cur =>
      if jsStartsWith "path" line then
        match keyValue "path" line with
        | some v => { st with submodules := modifyAt st.submodules cur (fun s => { s with path := some v }) }
        | none => st
      else if jsStartsWith "url" line then
        match keyValue "url" line with
        | some v => { st with submodules := modifyAt st.submodules cur (fun s => { s with url := some v }) }
        | none => st
      else if jsStartsWith "branch" line then
        match keyValue "branch" line with
        | some v => { st with submodules := modifyAt st.submodules cur (fun s => { s with branch := some v }) }
        | none => st
      else st

/-- `parseGitmodules` from the submodule script: `none` models an absent
`.gitmodules` file, for which the empty record is returned; otherwise the
content is split on newlines and folded through the line loop. -/
def parseGitmodules (content : Option String) : List (String × Submodule) :=
  match content with
  | none => []
  | some c =>
    ((jsSplit '\n' c).foldl parseLine { current := none, submodules := [] }).submodules

/-- Escape a string for a JSON string literal (quote and backslash; the
submodule names and URLs serialized here contain no control characters). -/
def jsonEscape (s : String) : String :=
  s.data.foldr
    (fun c acc =>
      (if c = '"' then "\\\"" else if c = '\\' then "\\\\" else String.mk [c]) ++ acc) ""

/-- One two-space-indented JSON string field line. -/
def jsonStringField (k v : String) : String :=
  "  \"" ++ jsonEscape k ++ "\": \"" ++ jsonEscape v ++ "\""

/-- The per-submodule JSON blob written by the script
(`JSON.stringify(submoduleData, null, 2)`): fields in insertion order,
`undefined` fields omitted, `branch` defaulted to the empty string. -/
def submoduleJson (info : Submodule) (commitSha : String) : String :=
  let fields :=
    [some ("name", info.name), info.path.map (fun p => ("path", p)),
     info.url.map (fun u => ("url", u)), some ("commit", commitSha),
     some ("branch", info.branch.getD "")]
  "\x7b\n" ++ String.intercalate ",\n" ((fields.filterMap id).map (fun kv => jsonStringField kv.1 kv.2))
    ++ "\n\x7d"

/-- Look a key up in the pinned-commit map built from `git submodule status`. -/
def lookupCommit (commits : List (String × String)) (k : String) : Option String :=
  (commits.find? (fun p => p.1 = k)).map (fun p => p.2)

/-- `main` from the submodule script: parses `.gitmodules` (`none` models an
absent file), builds one JSON-blob layer per submodule — pinned commit
defaulted to `UNKNOWN` — and unconditionally constructs and writes the
manifest; there is no empty-input check anywhere on this path, so the
function is total and the returned manifest is the written document. -/
def main (gitmodulesContent : Option String) (commits : List (String × String)) : Manifest :=
  let submodules := parseGitmodules gitmodulesContent
  let layers := submodules.map (fun p =>
    let info := p.2
    let commitSha := (info.path.bind (lookupCommit commits)).getD "UNKNOWN"
    let blob := (submoduleJson info commitSha).toUTF8.toList.map (fun b => b.toNat)
    let ds := computeDigestAndSize blob
    ({ mediaType := "application/vnd.example.git-submodule.layer.v1+json"
       digest := ds.digest, size := ds.size
       annotations := some [("org.opencontainers.image.title", p.1)] } : Descriptor))
  { schemaVersion := 2
    mediaType := "application/vnd.oci.image.manifest.v1+json"
    artifactType := "application/vnd.example.git-submodules"
    config := EMPTY_DESCRIPTOR
    layers := layers
    subject := none }

end Subm

/-! ## Helper definitions for the statements -/

/-- Placeholder descriptor used as the default of `List.getD`; every use
below is guarded by an in-range index. -/
def dummyDescriptor : Descriptor := { mediaType := "", digest := "", size := 0 }

/-- The subject of a build result, when one was produced. -/
def manifestSubject : Except JsError Manifest → Option Descriptor
  | Except.ok m => m.subject
  | Except.error _ => none

/-- Append a subject descriptor `S` to a build result, altering nothing
else: the reading of the spec's strategy-D contract for a caller-chosen
subject. -/
def withSubject (S : Descriptor) : Except JsError Manifest → Except JsError Manifest
  | Except.ok m => Except.ok { m with subject := some S }
  | Except.error e => Except.error e

/-- The manifest the submodule script writes when zero submodules are
discovered. -/
def emptySubmoduleManifest : Manifest :=
  { schemaVersion := 2
    mediaType := "application/vnd.oci.image.manifest.v1+json"
    artifactType := "application/vnd.example.git-submodules"
    config := EMPTY_DESCRIPTOR
    layers := []
    subject := none }

/-! ## Supporting lemmas -/

theorem approachA_nil : approachA [] = Except.error JsError.typeError := rfl

theorem approachB_nil : approachB [] = Except.error JsError.typeError := rfl

theorem approachD_nil : approachD [] = Except.error JsError.typeError := rfl

/-- The manifest approach A produces on a non-empty file list, with the
digest left symbolic. -/
theorem approachA_cons (p : NamedFile) (t : List NamedFile) :
    approachA (p :: t) = Except.ok
      { schemaVersion := 2
        mediaType := "application/vnd.oci.image.manifest.v1+json"
        artifactType := "application/vnd.solidity.abi"
        config := EMPTY_DESCRIPTOR
        layers := [{ mediaType := "application/vnd.solidity.abi.layer.v1+tar+gzip"
                     digest := (computeDigestAndSize (bundle (p :: t))).digest
                     size := (computeDigestAndSize (bundle (p :: t))).size }]
        subject := none } := rfl

/-- The manifest approach B produces on a non-empty file list. -/
theorem approachB_cons (p : NamedFile) (t : List NamedFile) :
    approachB (p :: t) = Except.ok
      { schemaVersion := 2
        mediaType := "application/vnd.oci.image.manifest.v1+json"
        artifactType := "application/vnd.solidity.abi"
        config := { mediaType := "application/vnd.solidity.abi.config.v1+tar+gzip"
                    digest := (computeDigestAndSize (bundle (p :: t))).digest
                    size := (computeDigestAndSize (bundle (p :: t))).size }
        layers := []
        subject := none } := rfl

/-- The manifest approach D produces on a non-empty file list: approach A's
manifest with the fixed subject assigned. -/
theorem approachD_cons (p : NamedFile) (t : List NamedFile) :
    approachD (p :: t) = Except.ok
      { schemaVersion := 2
        mediaType := "application/vnd.oci.image.manifest.v1+json"
        artifactType := "application/vnd.solidity.abi"
        config := EMPTY_DESCRIPTOR
        layers := [{ mediaType := "application/vnd.solidity.abi.layer.v1+tar+gzip"
                     digest := (computeDigestAndSize (bundle (p :: t))).digest
                     size := (computeDigestAndSize (bundle (p :: t))).size }]
        subject := some SUBJECT_DESCRIPTOR } := rfl

theorem beBytes_length (n x : Nat) : (beBytes n x).length = n := by
  induction n generalizing x with
  | zero => rfl
  | succ k ih => simp [beBytes, ih]

theorem sha256_length (b : List Nat) : (sha256 b).length = 32 := by
  simp [sha256, beBytes_length]

theorem hexChars_length (l : List Nat) : (hexChars l).length = 2 * l.length := by
  induction l with
  | nil => rfl
  | cons b t ih => simp [hexChars, ih]; omega

/-- The sixteen lowercase hexadecimal digit characters. -/
def hexAlphabet : List Char := "0123456789abcdef".data

theorem hexDigit_mem (n : Nat) (h : n < 16) :
    hexAlphabet.contains (hexDigit n) = true := by
  interval_cases n <;> decide

theorem hexChars_all_hex (l : List Nat) :
    (hexChars l).all (fun c => hexAlphabet.contains c) = true := by
  induction l with
  | nil => rfl
  | cons b t ih =>
    simp only [hexChars, List.all_cons, ih, Bool.and_true]
    rw [hexDigit_mem _ (by omega), hexDigit_mem _ (by omega)]
    rfl

/-- Indexing through `List.map` with defaults, when the index is in range. -/
theorem getD_map {α β : Type} (f : α → β) (l : List α) (i : Nat) (d : α) (d' : β)
    (h : i < l.length) : (l.map f).getD i d' = f (l.getD i d) := by
  induction l generalizing i with
  | nil => simp at h
  | cons a t ih =>
    cases i with
    | zero => rfl
    | succ j =>
      simp only [List.map_cons, List.getD_cons_succ]
      exact ih j (by simpa using h)

set_option maxRecDepth 20000 in
/-- Consistency of the embedded hash with the fixed empty-descriptor
constant: the digest the scripts hard-code for the two-byte body of an
empty JSON object is exactly what the embedded SHA-256 computes. -/
theorem EMPTY_DESCRIPTOR_digest_is_hash_of_empty_object :
    EMPTY_DESCRIPTOR.digest = (computeDigestAndSize [123, 125]).digest ∧
    EMPTY_DESCRIPTOR.size = (computeDigestAndSize [123, 125]).size := by
  constructor <;> decide

/-! ## Claim theorems -/

/-- C8: for every byte sequence `b` (including the empty sequence), the
content addresser returns `size` equal to the exact byte length of `b` and
`digest` equal to the string `sha256:` followed by the lowercase hex
encoding of the 256-bit (32-byte, 64 hex character) SHA-256 hash of `b`. -/
theorem computeDigestAndSize_size_and_digest_format (b : List Nat) :
    (computeDigestAndSize b).size = b.length ∧
    (computeDigestAndSize b).digest = "sha256:" ++ hexOfBytes (sha256 b) ∧
    (sha256 b).length = 32 ∧
    (hexOfBytes (sha256 b)).length = 64 ∧
    ((hexOfBytes (sha256 b)).data.all (fun c => hexAlphabet.contains c)) = true := by
  refine ⟨rfl, rfl, sha256_length b, ?_, ?_⟩
  · show (hexChars (sha256 b)).length = 64
    rw [hexChars_length, sha256_length]
  · show (hexChars (sha256 b)).all _ = true
    exact hexChars_all_hex _

/-- C4: for every valid strategy selector, invoking the driver with an
empty payload list fails with the empty-input condition; no manifest is
produced. -/
theorem main_empty_payloads_fails_empty_input (s : String)
    (hs : s ∈ (["A", "B", "C", "D"] : List String)) :
    Gen.main s [] = Except.error MainError.emptyInput := by
  fin_cases hs <;> rfl

/-- C4 witness at the concrete selector `A`. -/
theorem main_empty_payloads_fails_empty_input_witness :
    Gen.main "A" [] = Except.error MainError.emptyInput :=
  main_empty_payloads_fails_empty_input "A" (by decide)

/-- C9: the strategy A and B builders do not validate non-emptiness
themselves — on an empty file list `tarFiles` hits the undefined
`fileList[0]` and throws a `TypeError` (not an empty-input report), and so
do `approachA`, `approachB` and the D wrapper around A — while the
empty-input guard lives only in the CLI driver, which reports the
empty-input condition for every selector before any builder runs. -/
theorem builders_lack_empty_guard :
    tarFiles [] = Except.error JsError.typeError ∧
    approachA [] = Except.error JsError.typeError ∧
    approachB [] = Except.error JsError.typeError ∧
    approachD [] = Except.error JsError.typeError ∧
    Gen.main "A" [] = Except.error MainError.emptyInput ∧
    Gen.main "B" [] = Except.error MainError.emptyInput ∧
    Gen.main "C" [] = Except.error MainError.emptyInput ∧
    Gen.main "D" [] = Except.error MainError.emptyInput :=
  ⟨rfl, rfl, rfl, rfl, rfl, rfl, rfl, rfl⟩

/-- C5: every manifest built by strategy A, and every manifest built by
strategy C, carries exactly the fixed empty-descriptor constant as its
config — whose media type, digest and size are the fixed values —
independent of the payloads. -/
theorem approachA_approachC_config_is_empty_descriptor :
    (∀ ps m, approachA ps = Except.ok m → m.config = EMPTY_DESCRIPTOR) ∧
    (∀ ps, (approachC ps).config = EMPTY_DESCRIPTOR) ∧
    EMPTY_DESCRIPTOR.mediaType = "application/vnd.oci.empty.v1+json" ∧
    EMPTY_DESCRIPTOR.digest =
      "sha256:44136fa355b3678a1146ad16f7e8649e94fb4fc21fe77e8310c060f61caaff8a" ∧
    EMPTY_DESCRIPTOR.size = 2 := by
  refine ⟨?_, fun ps => rfl, rfl, rfl, rfl⟩
  intro ps m h
  cases ps with
  | nil => exact Except.noConfusion (approachA_nil ▸ h)
  | cons p t =>
    rw [approachA_cons] at h
    injection h with h'
    subst h'
    rfl

/-- C5 witness at a concrete one-payload list. -/
theorem approachA_approachC_config_is_empty_descriptor_witness :
    (∃ m, approachA [("Test.sol.abi", [1, 2, 3])] = Except.ok m ∧
      m.config = EMPTY_DESCRIPTOR) ∧
    (approachC [("Test.sol.abi", [1, 2, 3])]).config = EMPTY_DESCRIPTOR := by
  refine ⟨⟨_, approachA_cons _ _, ?_⟩, approachA_approachC_config_is_empty_descriptor.2.1 _⟩
  exact approachA_approachC_config_is_empty_descriptor.1 _ _ (approachA_cons _ _)

/-- C7: every manifest produced by strategies A, B or D, and strategy C's
manifest on any list, has the required fixed fields: `schemaVersion` 2 and
the fixed image-manifest media type (the single mandatory `config`
descriptor is present by construction of the `Manifest` record). -/
theorem all_strategies_required_fields (ps : List NamedFile) (m : Manifest) :
    ((approachA ps = Except.ok m ∨ approachB ps = Except.ok m ∨ approachD ps = Except.ok m) →
      m.schemaVersion = 2 ∧
      m.mediaType = "application/vnd.oci.image.manifest.v1+json") ∧
    ((approachC ps).schemaVersion = 2 ∧
      (approachC ps).mediaType = "application/vnd.oci.image.manifest.v1+json") := by
  constructor
  · intro h
    cases ps with
    | nil =>
      rcases h with h | h | h
      · exact Except.noConfusion (approachA_nil ▸ h)
      · exact Except.noConfusion (approachB_nil ▸ h)
      · exact Except.noConfusion (approachD_nil ▸ h)
    | cons p t =>
      rcases h with h | h | h
      · rw [approachA_cons] at h; injection h with h'; subst h'; exact ⟨rfl, rfl⟩
      · rw [approachB_cons] at h; injection h with h'; subst h'; exact ⟨rfl, rfl⟩
      · rw [approachD_cons] at h; injection h with h'; subst h'; exact ⟨rfl, rfl⟩
  · exact ⟨rfl, rfl⟩

/-- C7 witness at a concrete one-payload list via strategy B. -/
theorem all_strategies_required_fields_witness :
    ∃ m, approachB [("StdInvariant.sol.abi", [5])] = Except.ok m ∧
      m.schemaVersion = 2 ∧
      m.mediaType = "application/vnd.oci.image.manifest.v1+json" := by
  refine ⟨_, approachB_cons _ _, ?_⟩
  exact (all_strategies_required_fields [("StdInvariant.sol.abi", [5])] _).1
    (Or.inr (Or.inl (approachB_cons _ _)))

/-- C1: for every non-empty payload list (every list both builders accept),
strategy A's single layer descriptor and strategy B's config descriptor
carry the identical combined-bundle digest and size, and the two manifests
differ only in which slot holds that descriptor: A's config is the empty
descriptor and B's layer sequence is empty, while schema version, document
media type, artifact type and subject agree. -/
theorem approachA_approachB_share_bundle_descriptor (ps : List NamedFile)
    (mA mB : Manifest)
    (hA : approachA ps = Except.ok mA) (hB : approachB ps = Except.ok mB) :
    ∃ d, mA.layers = [d] ∧
      mB.config.digest = d.digest ∧ mB.config.size = d.size ∧
      mA.config = EMPTY_DESCRIPTOR ∧ mB.layers = [] ∧
      mA.schemaVersion = mB.schemaVersion ∧ mA.mediaType = mB.mediaType ∧
      mA.artifactType = mB.artifactType ∧ mA.subject = mB.subject := by
  cases ps with
  | nil => exact Except.noConfusion (approachA_nil ▸ hA)
  | cons p t =>
    rw [approachA_cons] at hA
    rw [approachB_cons] at hB
    injection hA with hA'
    injection hB with hB'
    subst hA'
    subst hB'
    exact ⟨_, rfl, rfl, rfl, rfl, rfl, rfl, rfl, rfl, rfl⟩

/-- C1 witness at a concrete one-payload list. -/
theorem approachA_approachB_share_bundle_descriptor_witness :
    ∃ mA mB d, approachA [("Vm.sol.abi", [9, 9])] = Except.ok mA ∧
      approachB [("Vm.sol.abi", [9, 9])] = Except.ok mB ∧
      mA.layers = [d] ∧ mB.config.digest = d.digest ∧ mB.config.size = d.size := by
  obtain ⟨d, h1, h2, h3, -⟩ :=
    approachA_approachB_share_bundle_descriptor [("Vm.sol.abi", [9, 9])] _ _
      (approachA_cons _ _) (approachB_cons _ _)
  exact ⟨_, _, d, approachA_cons _ _, approachB_cons _ _, h1, h2, h3⟩

/-- C6: strategy C emits exactly one layer per payload, in input order: the
layer sequence has the same length as the payload list and the `i`-th layer
records the `i`-th payload's byte length as its size and the `i`-th
payload's name under the title annotation key. -/
theorem approachC_layers_match_payloads (ps : List NamedFile) :
    (approachC ps).layers.length = ps.length ∧
    ∀ i, i < ps.length →
      ((approachC ps).layers.getD i dummyDescriptor).size =
        (ps.getD i ("", [])).2.length ∧
      ((approachC ps).layers.getD i dummyDescriptor).annotations =
        some [("org.opencontainers.image.title", (ps.getD i ("", [])).1)] := by
  constructor
  · show (ps.map abiLayer).length = ps.length
    exact List.length_map ps abiLayer
  · intro i hi
    have hm : (ps.map abiLayer).getD i dummyDescriptor = abiLayer (ps.getD i ("", [])) :=
      getD_map abiLayer ps i ("", []) dummyDescriptor hi
    show ((ps.map abiLayer).getD i dummyDescriptor).size = _ ∧
      ((ps.map abiLayer).getD i dummyDescriptor).annotations = _
    rw [hm]
    exact ⟨rfl, rfl⟩

/-- C6 witness at the spec's concrete scenario: payloads of 100 and 200
bytes. -/
theorem approachC_layers_match_payloads_witness :
    (approachC [("A.abi", List.replicate 100 7), ("B.abi", List.replicate 200 9)]).layers.length = 2 ∧
    ((approachC [("A.abi", List.replicate 100 7), ("B.abi", List.replicate 200 9)]).layers.getD 0 dummyDescriptor).size = 100 ∧
    ((approachC [("A.abi", List.replicate 100 7), ("B.abi", List.replicate 200 9)]).layers.getD 1 dummyDescriptor).size = 200 ∧
    ((approachC [("A.abi", List.replicate 100 7), ("B.abi", List.replicate 200 9)]).layers.getD 0 dummyDescriptor).annotations =
      some [("org.opencontainers.image.title", "A.abi")] := by
  have h := approachC_layers_match_payloads
    [("A.abi", List.replicate 100 7), ("B.abi", List.replicate 200 9)]
  have h0 := h.2 0 (by simp)
  have h1 := h.2 1 (by simp)
  refine ⟨by simpa using h.1, ?_, ?_, ?_⟩
  · rw [h0.1]
    show (List.replicate 100 7).length = 100
    exact List.length_replicate _ _
  · rw [h1.1]
    show (List.replicate 200 9).length = 200
    exact List.length_replicate _ _
  · rw [h0.2]
    rfl

/-- C2 counterexample: at the concrete payload list `[("A.abi", [1, 2, 3])]`
and with no subject option (the code accepts none), strategy D does not fail
with a missing-subject condition — it produces a manifest. -/
theorem approachD_no_missing_subject_counterexample :
    (approachD [("A.abi", [1, 2, 3])]).toOption.isSome = true ∧
    approachD [("A.abi", [1, 2, 3])] ≠ Except.error JsError.missingSubject := by
  constructor
  · rfl
  · intro h
    rw [approachD_cons] at h
    exact Except.noConfusion h

/-- C2 amended: for every non-empty payload list, strategy D — which takes
no subject option — succeeds and returns a manifest whose subject is the
fixed built-in `SUBJECT_DESCRIPTOR`; no invocation of it ever raises the
missing-subject condition. -/
theorem approachD_attaches_fixed_subject :
    (∀ ps, ps ≠ [] → ∃ m, approachD ps = Except.ok m ∧
      m.subject = some SUBJECT_DESCRIPTOR) ∧
    (∀ ps, approachD ps ≠ Except.error JsError.missingSubject) := by
  constructor
  · intro ps hps
    cases ps with
    | nil => exact absurd rfl hps
    | cons p t => exact ⟨_, approachD_cons p t, rfl⟩
  · intro ps h
    cases ps with
    | nil =>
      rw [approachD_nil] at h
      injection h with h'
      exact JsError.noConfusion h'
    | cons p t =>
      rw [approachD_cons] at h
      exact Except.noConfusion h

/-- C2 amended-claim witness at a concrete one-payload list. -/
theorem approachD_attaches_fixed_subject_witness :
    [("A.abi", [1, 2, 3])] ≠ ([] : List NamedFile) ∧
    (∃ m, approachD [("A.abi", [1, 2, 3])] = Except.ok m ∧
      m.subject = some SUBJECT_DESCRIPTOR) :=
  ⟨by decide, approachD_attaches_fixed_subject.1 _ (by decide)⟩

/-- C3 counterexample: the subject strategy D attaches is not a
caller-chosen `S` — at the concrete payload list `[("B.abi", [4, 5])]` and
the concrete subject choice `S = EMPTY_DESCRIPTOR`, the built manifest is
not strategy A's manifest with subject `S`: the attached subject is the
fixed `SUBJECT_DESCRIPTOR`, which differs from `S`. -/
theorem approachD_subject_not_caller_chosen_counterexample :
    manifestSubject (approachD [("B.abi", [4, 5])]) = some SUBJECT_DESCRIPTOR ∧
    SUBJECT_DESCRIPTOR ≠ EMPTY_DESCRIPTOR ∧
    approachD [("B.abi", [4, 5])] ≠
      withSubject EMPTY_DESCRIPTOR (approachA [("B.abi", [4, 5])]) := by
  refine ⟨rfl, by decide, ?_⟩
  intro h
  rw [approachD_cons, approachA_cons] at h
  injection h with h'
  exact absurd (congrArg Manifest.subject h') (by decide)

/-- C3 amended: for every non-empty payload list, strategy D's manifest
equals strategy A's manifest on the same payloads with the subject field
set to the fixed `SUBJECT_DESCRIPTOR` constant appended, and every other
field (schema version, media type, artifact type, config, layers)
unchanged. -/
theorem approachD_equals_approachA_plus_fixed_subject (ps : List NamedFile)
    (mA mD : Manifest)
    (hA : approachA ps = Except.ok mA) (hD : approachD ps = Except.ok mD) :
    mD.schemaVersion = mA.schemaVersion ∧ mD.mediaType = mA.mediaType ∧
    mD.artifactType = mA.artifactType ∧ mD.config = mA.config ∧
    mD.layers = mA.layers ∧ mD.subject = some SUBJECT_DESCRIPTOR ∧
    mA.subject = none := by
  cases ps with
  | nil => exact Except.noConfusion (approachA_nil ▸ hA)
  | cons p t =>
    rw [approachA_cons] at hA
    rw [approachD_cons] at hD
    injection hA with h1
    injection hD with h2
    subst h1
    subst h2
    exact ⟨rfl, rfl, rfl, rfl, rfl, rfl, rfl⟩

/-- C3 amended-claim witness at a concrete one-payload list. -/
theorem approachD_equals_approachA_plus_fixed_subject_witness :
    ∃ mA mD, approachA [("B.abi", [4, 5])] = Except.ok mA ∧
      approachD [("B.abi", [4, 5])] = Except.ok mD ∧
      mD.layers = mA.layers ∧ mD.subject = some SUBJECT_DESCRIPTOR := by
  obtain ⟨-, -, -, -, h5, h6, -⟩ :=
    approachD_equals_approachA_plus_fixed_subject [("B.abi", [4, 5])] _ _
      (approachA_cons _ _) (approachD_cons _ _)
  exact ⟨_, _, approachA_cons _ _, approachD_cons _ _, h5, h6⟩

/-- C10: the submodule variant of strategy C enforces no non-empty
precondition: an absent gitmodules file parses to the empty record, and
whenever the parse is empty the layer loop runs zero times and the full
manifest — empty layer array, empty-descriptor config — is still
constructed and returned for writing instead of any empty-input failure
(the builder is a total function with no failure path). -/
theorem subm_no_submodules_still_writes_manifest :
    Subm.parseGitmodules none = [] ∧
    (∀ commits, Subm.main none commits = emptySubmoduleManifest) ∧
    (∀ content commits, Subm.parseGitmodules (some content) = [] →
      Subm.main (some content) commits = emptySubmoduleManifest) := by
  refine ⟨rfl, fun commits => rfl, ?_⟩
  intro content commits h
  simp only [Subm.main, h]
  rfl

/-- C10 witness: a concrete gitmodules content defining no submodules. -/
theorem subm_no_submodules_still_writes_manifest_witness :
    Subm.parseGitmodules (some "# no entries configured") = [] ∧
    Subm.main (some "# no entries configured") [] = emptySubmoduleManifest := by
  refine ⟨rfl, ?_⟩
  exact subm_no_submodules_still_writes_manifest.2.2 "# no entries configured" [] rfl
